import Mathlib

/-!
Verification of the elfpy Hyperdrive AMM pricing core (delvtech/agent0).

The pricing engine itself (elfpy.pricing_models, elfpy.markets, elfpy.types,
elfpy.utils.time, elfpy.utils.price) is not present in the source tree: only
the generated API documentation (autoapi RST files with signatures, field
defaults and docstring formulas) is.  Following the specification, the
missing function bodies are modelled here from the spec's words and from the
docstring formulas that do appear in the source tree, over the real numbers
with `Real.rpow` standing for the fixed-point power operation.
-/

noncomputable section

namespace Elfpy

/-- Modelled from the spec: `elfpy.types.TokenType`, the unit of a traded
quantity, either the base asset or principal tokens (bonds). -/
inductive TokenType
  | BASE
  | PT
deriving DecidableEq

/-- Modelled from the spec: `elfpy.types.MarketActionType`, the six
trade-intent types accepted by the Market. -/
inductive MarketActionType
  | OPEN_LONG
  | OPEN_SHORT
  | CLOSE_LONG
  | CLOSE_SHORT
  | ADD_LIQUIDITY
  | REMOVE_LIQUIDITY
deriving DecidableEq

/-- Modelled from the spec: `elfpy.types.Quantity`, an amount with a unit. -/
structure Quantity where
  amount : ℝ
  unit : TokenType

/-- Modelled from the spec: `elfpy.types.StretchedTime`, remaining
time-to-maturity together with the time-stretch constant.  The field
defaults and derived properties follow the autoapi declarations and
spec section 3. -/
structure StretchedTime where
  days : ℝ
  time_stretch : ℝ

/-- Modelled from the spec: `StretchedTime.normalized_time`, days divided
by the 365-day year. -/
def StretchedTime.normalized_time (t : StretchedTime) : ℝ :=
  t.days / 365

/-- Modelled from the spec: `StretchedTime.stretched_time`, the normalized
time divided by the time-stretch constant. -/
def StretchedTime.stretched_time (t : StretchedTime) : ℝ :=
  t.normalized_time / t.time_stretch

/-- Modelled from the spec: `elfpy.types.MarketState` with the field
defaults declared in the autoapi documentation (reserves, buffers, LP
supply and vault APR default to 0.0; both share prices default to 1.0;
both fee rates default to 0.0). -/
structure MarketState where
  share_reserves : ℝ := 0
  bond_reserves : ℝ := 0
  base_buffer : ℝ := 0
  bond_buffer : ℝ := 0
  lp_reserves : ℝ := 0
  vault_apr : ℝ := 0
  share_price : ℝ := 1
  init_share_price : ℝ := 1
  trade_fee_percent : ℝ := 0
  redemption_fee_percent : ℝ := 0

/-- Modelled from the spec: `elfpy.types.MarketDeltas`, the signed change
to apply to a MarketState after a trade; every field defaults to 0. -/
structure MarketDeltas where
  d_base_asset : ℝ := 0
  d_token_asset : ℝ := 0
  d_base_buffer : ℝ := 0
  d_bond_buffer : ℝ := 0
  d_lp_reserves : ℝ := 0
  d_share_price : ℝ := 0

/-- Modelled from the spec: `MarketState.apply_delta`, which applies the
whole delta set to the state in one update; `d_base_asset` is denominated
in base and is converted to shares at the current share price. -/
def MarketState.apply_delta (s : MarketState) (d : MarketDeltas) : MarketState :=
  { s with
    share_reserves := s.share_reserves + d.d_base_asset / s.share_price
    bond_reserves := s.bond_reserves + d.d_token_asset
    base_buffer := s.base_buffer + d.d_base_buffer
    bond_buffer := s.bond_buffer + d.d_bond_buffer
    lp_reserves := s.lp_reserves + d.d_lp_reserves
    share_price := s.share_price + d.d_share_price }

/-- Modelled from the spec: `elfpy.types.AgentTradeResult`, the user-side
settlement of a trade. -/
structure AgentTradeResult where
  d_base : ℝ
  d_bonds : ℝ

/-- Modelled from the spec: `elfpy.types.MarketTradeResult`, the
market-side settlement of a trade. -/
structure MarketTradeResult where
  d_base : ℝ
  d_bonds : ℝ

/-- Modelled from the spec: `elfpy.types.TradeBreakdown`, the granular fee
and slippage decomposition of a trade. -/
structure TradeBreakdown where
  without_fee_or_slippage : ℝ
  with_fee : ℝ
  without_fee : ℝ
  fee : ℝ

/-- Modelled from the spec: `elfpy.types.TradeResult`, the structured
output of a single pricing computation. -/
structure TradeResult where
  user_result : AgentTradeResult
  market_result : MarketTradeResult
  breakdown : TradeBreakdown

/-- Modelled from the spec: the invariant quantity `k` of spec section 4.2,
a constant-power-sum blend of share and bond reserves at the current share
price and stretch exponent:
`k = (c/mu) * (mu*z)^(1-tau) + (2*y + c*z)^(1-tau)`. -/
def calc_k_const (s : MarketState) (t : StretchedTime) : ℝ :=
  let τ := t.stretched_time
  (s.share_price / s.init_share_price)
      * (s.init_share_price * s.share_reserves) ^ (1 - τ)
    + (2 * s.bond_reserves + s.share_price * s.share_reserves) ^ (1 - τ)

/-- Modelled from the spec: `PricingModel.calc_spot_price_from_reserves`,
the docstring formula `p = ((2y + cz) / (mu z))^(-tau)`. -/
def calc_spot_price_from_reserves (s : MarketState) (t : StretchedTime) : ℝ :=
  ((2 * s.bond_reserves + s.share_price * s.share_reserves)
      / (s.init_share_price * s.share_reserves)) ^ (-t.stretched_time)

/-- Modelled from the spec: `elfpy.pricing_models.hyperdrive` method
`calc_out_given_in`.  The trade moves the full input along the bonding
curve defined by the invariant `k` (spec section 4.2); the fee is the
trade-fee fraction of the gap between the no-slippage amount and the input
converted at par, and the output is returned net of the fee. -/
def calc_out_given_in (in_ : Quantity) (s : MarketState) (t : StretchedTime) :
    TradeResult :=
  let τ := t.stretched_time
  let z := s.share_reserves
  let y := s.bond_reserves
  let c := s.share_price
  let μ := s.init_share_price
  let φ := s.trade_fee_percent
  let k := calc_k_const s t
  let ratio := (2 * y + c * z) / (μ * z)
  match in_.unit with
  | TokenType.BASE =>
      let d_shares := in_.amount / c
      let without_fee_or_slippage := ratio ^ τ * in_.amount
      let without_fee :=
        2 * y + c * z
          - (k - (c / μ) * (μ * (z + d_shares)) ^ (1 - τ)) ^ (1 / (1 - τ))
      let fee := (ratio ^ τ - 1) * φ * in_.amount
      let with_fee := without_fee - fee
      { user_result := { d_base := -in_.amount, d_bonds := with_fee }
        market_result := { d_base := in_.amount, d_bonds := -with_fee }
        breakdown :=
          { without_fee_or_slippage := without_fee_or_slippage
            with_fee := with_fee
            without_fee := without_fee
            fee := fee } }
  | TokenType.PT =>
      let without_fee_or_slippage := ratio ^ (-τ) * in_.amount
      let without_fee :=
        c * (z - (1 / μ)
          * ((k - (2 * y + c * z + in_.amount) ^ (1 - τ)) / (c / μ)) ^ (1 / (1 - τ)))
      let fee := (1 - ratio ^ (-τ)) * φ * in_.amount
      let with_fee := without_fee - fee
      { user_result := { d_base := with_fee, d_bonds := -in_.amount }
        market_result := { d_base := -with_fee, d_bonds := in_.amount }
        breakdown :=
          { without_fee_or_slippage := without_fee_or_slippage
            with_fee := with_fee
            without_fee := without_fee
            fee := fee } }

/-- Modelled from the spec: `elfpy.pricing_models.hyperdrive` method
`calc_in_given_out`, the symmetric inverse of `calc_out_given_in`: the
required input for a desired output, decomposed into the curve amount plus
the fee. -/
def calc_in_given_out (out : Quantity) (s : MarketState) (t : StretchedTime) :
    TradeResult :=
  let τ := t.stretched_time
  let z := s.share_reserves
  let y := s.bond_reserves
  let c := s.share_price
  let μ := s.init_share_price
  let φ := s.trade_fee_percent
  let k := calc_k_const s t
  let ratio := (2 * y + c * z) / (μ * z)
  match out.unit with
  | TokenType.PT =>
      let without_fee_or_slippage := ratio ^ (-τ) * out.amount
      let without_fee :=
        c * ((1 / μ)
          * ((k - (2 * y + c * z - out.amount) ^ (1 - τ)) / (c / μ)) ^ (1 / (1 - τ)) - z)
      let fee := (1 - ratio ^ (-τ)) * φ * out.amount
      let with_fee := without_fee + fee
      { user_result := { d_base := -with_fee, d_bonds := out.amount }
        market_result := { d_base := with_fee, d_bonds := -out.amount }
        breakdown :=
          { without_fee_or_slippage := without_fee_or_slippage
            with_fee := with_fee
            without_fee := without_fee
            fee := fee } }
  | TokenType.BASE =>
      let d_shares := out.amount / c
      let without_fee_or_slippage := ratio ^ τ * out.amount
      let without_fee :=
        (k - (c / μ) * (μ * (z - d_shares)) ^ (1 - τ)) ^ (1 / (1 - τ))
          - (2 * y + c * z)
      let fee := (ratio ^ τ - 1) * φ * out.amount
      let with_fee := without_fee + fee
      { user_result := { d_base := out.amount, d_bonds := -with_fee }
        market_result := { d_base := -out.amount, d_bonds := with_fee }
        breakdown :=
          { without_fee_or_slippage := without_fee_or_slippage
            with_fee := with_fee
            without_fee := without_fee
            fee := fee } }

/-- Modelled from the spec: `elfpy.utils.price.calc_apr_from_spot_price`,
the pure conversion from a spot price and remaining time to the implied
fixed annualized rate. -/
def calc_apr_from_spot_price (price : ℝ) (t : StretchedTime) : ℝ :=
  (1 - price) / (price * t.normalized_time)

/-- Modelled from the spec: `elfpy.utils.price.calc_spot_price_from_apr`,
the inverse conversion from an APR to a spot price. -/
def calc_spot_price_from_apr (apr : ℝ) (t : StretchedTime) : ℝ :=
  1 / (1 + apr * t.normalized_time)

/-- Modelled from the spec: `PricingModel.calc_apr_from_reserves`, the APR
implied by the reserves, derived from the spot price and time remaining. -/
def calc_apr_from_reserves (s : MarketState) (t : StretchedTime) : ℝ :=
  calc_apr_from_spot_price (calc_spot_price_from_reserves s t) t

/-- Modelled from the spec: `PricingModel.calc_bond_reserves`, the bond
reserves that produce the target APR for the given share reserves: the
reserve ratio is set so that the spot price equals
`1 / (1 + apr * normalized_time)`. -/
def calc_bond_reserves (target_apr : ℝ) (share_reserves : ℝ) (t : StretchedTime)
    (init_share_price : ℝ := 1) (share_price : ℝ := 1) : ℝ :=
  (share_reserves / 2)
    * (init_share_price
        * (1 + target_apr * t.normalized_time) ^ (1 / t.stretched_time)
      - share_price)

/-- Modelled from the spec: the total liquidity in the pool in terms of
base, share reserves at the share price plus bond reserves at the spot
price, as used by `PricingModel.calc_liquidity`. -/
def calc_total_liquidity_from_reserves_and_price (s : MarketState)
    (t : StretchedTime) : ℝ :=
  s.share_price * s.share_reserves
    + calc_spot_price_from_reserves s t * s.bond_reserves

/-- Modelled from the spec: `PricingModel.calc_liquidity`; back-solves
share and bond reserves from a target liquidity and target APR, then
applies a ratio-preserving scaling so that the base-denominated total
matches the target liquidity while the APR is preserved. -/
def calc_liquidity (s : MarketState) (target_liquidity : ℝ) (target_apr : ℝ)
    (position_duration : StretchedTime) : ℝ × ℝ :=
  let share_reserves := target_liquidity / s.share_price
  let bond_reserves := calc_bond_reserves target_apr share_reserves
    position_duration s.init_share_price s.share_price
  let state := { s with
    share_reserves := share_reserves, bond_reserves := bond_reserves }
  let total_liquidity :=
    calc_total_liquidity_from_reserves_and_price state position_duration
  let scaling_factor := target_liquidity / total_liquidity
  (share_reserves * scaling_factor, bond_reserves * scaling_factor)

/-- Modelled from the spec: the error kinds of spec section 7. -/
inductive TradeError
  | InvalidArgument
  | InsufficientLiquidity
  | ConvergenceLimitExceeded
  | InvariantViolation
deriving DecidableEq

/-- Modelled from the spec: `elfpy.utils.time.norm_days`; days divided by
the normalizing constant, failing with InvalidArgument when the
normalizing constant is not positive. -/
def norm_days (days : ℝ) (normalizing_constant : ℝ := 365) :
    Except TradeError ℝ :=
  if normalizing_constant ≤ 0 then Except.error TradeError.InvalidArgument
  else Except.ok (days / normalizing_constant)

/-- Modelled from the spec: `elfpy.utils.time.unnorm_days`, the inverse of
`norm_days`, with the same InvalidArgument guard. -/
def unnorm_days (normed_days : ℝ) (normalizing_constant : ℝ := 365) :
    Except TradeError ℝ :=
  if normalizing_constant ≤ 0 then Except.error TradeError.InvalidArgument
  else Except.ok (normed_days * normalizing_constant)

/-- Modelled from the spec: `elfpy.utils.time.stretch_time`; time divided
by the time stretch, failing with InvalidArgument when the time stretch is
not positive. -/
def stretch_time (time : ℝ) (time_stretch : ℝ := 1) : Except TradeError ℝ :=
  if time_stretch ≤ 0 then Except.error TradeError.InvalidArgument
  else Except.ok (time / time_stretch)

/-- Modelled from the spec: `elfpy.utils.time.unstretch_time`, the inverse
of `stretch_time`, with the same InvalidArgument guard. -/
def unstretch_time (stretched_time : ℝ) (time_stretch : ℝ := 1) :
    Except TradeError ℝ :=
  if time_stretch ≤ 0 then Except.error TradeError.InvalidArgument
  else Except.ok (stretched_time * time_stretch)

/-- Modelled from the spec: `elfpy.utils.time.days_to_time_remaining`,
normalization composed with stretching, guarding both constants. -/
def days_to_time_remaining (days_remaining : ℝ) (time_stretch : ℝ := 1)
    (normalizing_constant : ℝ := 365) : Except TradeError ℝ :=
  if normalizing_constant ≤ 0 then Except.error TradeError.InvalidArgument
  else if time_stretch ≤ 0 then Except.error TradeError.InvalidArgument
  else Except.ok (days_remaining / normalizing_constant / time_stretch)

/-- Modelled from the spec: `elfpy.utils.time.time_to_days_remaining`, the
inverse composition, guarding both constants. -/
def time_to_days_remaining (time_remaining : ℝ) (time_stretch : ℝ := 1)
    (normalizing_constant : ℝ := 365) : Except TradeError ℝ :=
  if normalizing_constant ≤ 0 then Except.error TradeError.InvalidArgument
  else if time_stretch ≤ 0 then Except.error TradeError.InvalidArgument
  else Except.ok (time_remaining * time_stretch * normalizing_constant)

/-- Modelled from the spec: the bounded-effort bisection search of spec
section 4.2; the fuel argument is the iteration cap, and exhausting the
cap returns the current best estimate (the interval midpoint) instead of
failing. -/
def bisect (g : ℝ → ℝ) (tol : ℝ) (lo hi : ℝ) : ℕ → ℝ
  | 0 => (lo + hi) / 2
  | Nat.succ n =>
      let mid := (lo + hi) / 2
      if |g mid| ≤ tol then mid
      else if 0 < g mid then bisect g tol mid hi n
      else bisect g tol lo mid n

/-- Modelled from the spec: the quantity whose zero the max-short
bisection brackets; the share reserves that would remain after shorting
the given amount of bonds (the curve's singularity is at zero reserves). -/
def max_short_objective (s : MarketState) (t : StretchedTime) (d_bonds : ℝ) : ℝ :=
  s.share_reserves
    - (calc_out_given_in { amount := d_bonds, unit := TokenType.PT } s t).breakdown.with_fee
      / s.share_price

/-- Modelled from the spec: the iteration cap of the bisection-based
sizing functions. -/
def max_iterations : ℕ := 100

/-- Modelled from the spec: the empirical convergence tolerance of the
bisection-based sizing functions. -/
def bisection_tolerance : ℝ := 1e-15

/-- Modelled from the spec: `PricingModel.get_max_short`; bisection over
the trade size in bonds between zero and the bond reserves, returning the
base proceeds and the bond amount of the best estimate found within the
iteration cap. -/
def get_max_short (s : MarketState) (_fee_percent : ℝ) (t : StretchedTime) :
    ℝ × ℝ :=
  let max_bonds :=
    bisect (max_short_objective s t) bisection_tolerance 0 s.bond_reserves
      max_iterations
  ((calc_out_given_in { amount := max_bonds, unit := TokenType.PT } s t).breakdown.with_fee,
    max_bonds)

/-- Modelled from the spec: `elfpy.markets.Market`, owning a MarketState
and the position duration. -/
structure Market where
  market_state : MarketState := {}
  position_duration : StretchedTime := { days := 365, time_stretch := 1 }

/-- Modelled from the spec: the default MarketState of the Market
constructor declared in the documentation, with every reserve, buffer and
fee zero and both share prices one. -/
def default_market_state : MarketState := {}

/-- Modelled from the spec: a default-constructed Market, holding the
empty MarketState and a position duration of 365 days with unit time
stretch. -/
def default_market : Market := {}

/-- Modelled from the spec: `elfpy.types.MarketAction`, a trade intent. -/
structure MarketAction where
  action_type : MarketActionType
  trade_amount : ℝ
  wallet_address : ℤ
  mint_time : ℝ := 0

/-- Modelled from the spec: the Wallet-facing settlement of a trade, the
signed base and bond amounts credited to the agent. -/
structure WalletDeltas where
  d_base : ℝ := 0
  d_bonds : ℝ := 0
  d_lp_tokens : ℝ := 0

/-- Modelled from the spec: the input assertions of spec section 4.2; a
non-positive trade amount or a stretched time outside the unit interval is
an InvalidArgument. -/
def check_input (trade_amount : ℝ) (t : StretchedTime) : Except TradeError Unit :=
  if trade_amount ≤ 0 then Except.error TradeError.InvalidArgument
  else if t.stretched_time < 0 ∨ 1 < t.stretched_time then
    Except.error TradeError.InvalidArgument
  else Except.ok ()

/-- Modelled from the spec: the post-trade liquidity check; a trade that
would drive the share or bond reserves negative is an
InsufficientLiquidity failure. -/
def check_liquidity (s : MarketState) (d : MarketDeltas) :
    Except TradeError Unit :=
  let s2 := s.apply_delta d
  if s2.share_reserves < 0 ∨ s2.bond_reserves < 0 then
    Except.error TradeError.InsufficientLiquidity
  else Except.ok ()

/-- Modelled from the spec: `Market.open_long`; spend base, receive bonds;
the market gains the base and loses the bonds of the trade result. -/
def market_deltas_open_long (s : MarketState) (t : StretchedTime)
    (trade_amount : ℝ) : MarketDeltas × WalletDeltas :=
  let r := calc_out_given_in { amount := trade_amount, unit := TokenType.BASE } s t
  ({ d_base_asset := r.market_result.d_base
     d_token_asset := r.market_result.d_bonds },
   { d_base := r.user_result.d_base, d_bonds := r.user_result.d_bonds })

/-- Modelled from the spec: `Market.close_long`; sell bonds back for
base. -/
def market_deltas_close_long (s : MarketState) (t : StretchedTime)
    (trade_amount : ℝ) : MarketDeltas × WalletDeltas :=
  let r := calc_out_given_in { amount := trade_amount, unit := TokenType.PT } s t
  ({ d_base_asset := r.market_result.d_base
     d_token_asset := r.market_result.d_bonds },
   { d_base := r.user_result.d_base, d_bonds := r.user_result.d_bonds })

/-- Modelled from the spec: `Market.open_short`; sell bonds short; the
margin deposited from the wallet is the face value of the bonds minus the
short-sale proceeds. -/
def market_deltas_open_short (s : MarketState) (t : StretchedTime)
    (trade_amount : ℝ) : MarketDeltas × WalletDeltas :=
  let r := calc_out_given_in { amount := trade_amount, unit := TokenType.PT } s t
  let max_loss := trade_amount - r.user_result.d_base
  ({ d_base_asset := r.market_result.d_base
     d_token_asset := r.market_result.d_bonds },
   { d_base := -max_loss, d_bonds := 0 })

/-- Modelled from the spec: `Market.close_short`; buy the shorted bonds
back; the base returned to the wallet is the face-value margin plus the
(negative) user-side base delta of the repurchase. -/
def market_deltas_close_short (s : MarketState) (t : StretchedTime)
    (trade_amount : ℝ) : MarketDeltas × WalletDeltas :=
  let r := calc_in_given_out { amount := trade_amount, unit := TokenType.PT } s t
  ({ d_base_asset := r.market_result.d_base
     d_token_asset := r.market_result.d_bonds },
   { d_base := trade_amount + r.user_result.d_base, d_bonds := 0 })

/-- Modelled from the spec: `Market.add_liquidity`; proportional-share LP
token minting against the pool reserves. -/
def market_deltas_add_liquidity (s : MarketState) (t : StretchedTime)
    (trade_amount : ℝ) : MarketDeltas × WalletDeltas :=
  let total := calc_total_liquidity_from_reserves_and_price s t
  let lp_out := trade_amount * s.lp_reserves / total
  ({ d_base_asset := trade_amount, d_lp_reserves := lp_out },
   { d_base := -trade_amount, d_lp_tokens := lp_out })

/-- Modelled from the spec: `Market.remove_liquidity`; proportional-share
LP token burning against the pool reserves. -/
def market_deltas_remove_liquidity (s : MarketState) (t : StretchedTime)
    (trade_amount : ℝ) : MarketDeltas × WalletDeltas :=
  let total := calc_total_liquidity_from_reserves_and_price s t
  let base_out := trade_amount * total / s.lp_reserves
  ({ d_base_asset := -base_out, d_lp_reserves := -trade_amount },
   { d_base := base_out, d_lp_tokens := -trade_amount })

/-- Modelled from the spec: the per-action delta computation dispatched by
`Market.trade_and_update`. -/
def market_deltas_for (s : MarketState) (t : StretchedTime)
    (a : MarketAction) : MarketDeltas × WalletDeltas :=
  match a.action_type with
  | MarketActionType.OPEN_LONG => market_deltas_open_long s t a.trade_amount
  | MarketActionType.CLOSE_LONG => market_deltas_close_long s t a.trade_amount
  | MarketActionType.OPEN_SHORT => market_deltas_open_short s t a.trade_amount
  | MarketActionType.CLOSE_SHORT => market_deltas_close_short s t a.trade_amount
  | MarketActionType.ADD_LIQUIDITY => market_deltas_add_liquidity s t a.trade_amount
  | MarketActionType.REMOVE_LIQUIDITY => market_deltas_remove_liquidity s t a.trade_amount

/-- Modelled from the spec: `Market.trade_and_update`; validates the
request, computes the deltas with the pricing model, checks liquidity, and
either commits the whole delta set to the state in a single
`apply_delta` or rejects the trade with an error before any mutation. -/
def Market.trade_and_update (m : Market) (a : MarketAction) :
    Except TradeError (Market × WalletDeltas) :=
  match check_input a.trade_amount m.position_duration with
  | Except.error e => Except.error e
  | Except.ok _ =>
      let dw := market_deltas_for m.market_state m.position_duration a
      match check_liquidity m.market_state dw.1 with
      | Except.error e => Except.error e
      | Except.ok _ =>
          Except.ok ({ m with market_state := m.market_state.apply_delta dw.1 },
            dw.2)

/-- Helper: evaluate a real power with exponent one half on a perfect
square. -/
lemma rpow_eval_half {a b e : ℝ} (hb : 0 ≤ b) (ha : a = b * b) (he : e = 1 / 2) :
    a ^ e = b := by
  subst ha he
  have h2 : b * b = b ^ ((2 : ℕ) : ℝ) := by
    rw [Real.rpow_natCast]
    ring
  rw [h2, ← Real.rpow_mul hb]
  norm_num

/-- Helper: evaluate a real power with exponent two. -/
lemma rpow_eval_two {a e : ℝ} (he : e = 2) : a ^ e = a * a := by
  subst he
  have h2 : (2 : ℝ) = ((2 : ℕ) : ℝ) := by norm_num
  rw [h2, Real.rpow_natCast]
  ring

/-- Helper: evaluate a real power with exponent minus one half on a
perfect square. -/
lemma rpow_eval_neg_half {a b e : ℝ} (hb : 0 < b) (ha : a = b * b) (he : e = -(1 / 2)) :
    a ^ e = b⁻¹ := by
  subst ha he
  have hab : (0 : ℝ) ≤ b * b := by positivity
  rw [Real.rpow_neg hab, rpow_eval_half hb.le rfl rfl]

/-- Helper: raising to `1/e` and then to `e` is the identity on
nonnegative reals. -/
lemma rpow_one_div_rpow {a e : ℝ} (ha : 0 ≤ a) (he : e ≠ 0) :
    (a ^ (1 / e)) ^ e = a := by
  rw [← Real.rpow_mul ha, one_div, inv_mul_cancel₀ he, Real.rpow_one]

/-- Helper: raising to `e` and then to `1/e` is the identity on
nonnegative reals. -/
lemma rpow_rpow_one_div {a e : ℝ} (ha : 0 ≤ a) (he : e ≠ 0) :
    (a ^ e) ^ (1 / e) = a := by
  rw [← Real.rpow_mul ha, one_div, mul_inv_cancel₀ he, Real.rpow_one]

/-- Helper: the bisection search on a degenerate bracket returns the
bracket point for any fuel. -/
lemma bisect_self (g : ℝ → ℝ) (tol x : ℝ) : ∀ n, bisect g tol x x n = x := by
  intro n
  induction n with
  | zero =>
      show (x + x) / 2 = x
      ring
  | succ n ih =>
      show (if |g ((x + x) / 2)| ≤ tol then (x + x) / 2
        else if 0 < g ((x + x) / 2) then bisect g tol ((x + x) / 2) x n
        else bisect g tol x ((x + x) / 2) n) = x
      have hm : (x + x) / 2 = x := by ring
      rw [hm]
      split_ifs with h1 h2
      · rfl
      · exact ih
      · exact ih

/-- C1: for every trade computed by the pricing model, in every direction
branch of `calc_out_given_in` and `calc_in_given_out`, the user-side and
market-side results are exactly offsetting: `user_result.d_base` equals
`-market_result.d_base` and `user_result.d_bonds` equals
`-market_result.d_bonds` (zero-sum conservation in both traded assets). -/
theorem trade_result_zero_sum (q : Quantity) (s : MarketState) (t : StretchedTime) :
    (calc_out_given_in q s t).user_result.d_base
        = -(calc_out_given_in q s t).market_result.d_base
    ∧ (calc_out_given_in q s t).user_result.d_bonds
        = -(calc_out_given_in q s t).market_result.d_bonds
    ∧ (calc_in_given_out q s t).user_result.d_base
        = -(calc_in_given_out q s t).market_result.d_base
    ∧ (calc_in_given_out q s t).user_result.d_bonds
        = -(calc_in_given_out q s t).market_result.d_bonds := by
  obtain ⟨amt, u⟩ := q
  cases u <;> simp [calc_out_given_in, calc_in_given_out]

/-- C10: a MarketState constructed with no arguments has all reserves,
buffers, LP supply, vault APR and fees equal to zero and both share
prices equal to one, and a default-constructed Market holds exactly this
empty state with a position duration of 365 days and unit time stretch:
an empty pool with zero liquidity. -/
theorem default_market_is_empty_pool :
    default_market_state.share_reserves = 0
    ∧ default_market_state.bond_reserves = 0
    ∧ default_market_state.base_buffer = 0
    ∧ default_market_state.bond_buffer = 0
    ∧ default_market_state.lp_reserves = 0
    ∧ default_market_state.vault_apr = 0
    ∧ default_market_state.share_price = 1
    ∧ default_market_state.init_share_price = 1
    ∧ default_market_state.trade_fee_percent = 0
    ∧ default_market_state.redemption_fee_percent = 0
    ∧ default_market.market_state = default_market_state
    ∧ default_market.position_duration.days = 365
    ∧ default_market.position_duration.time_stretch = 1 := by
  refine ⟨rfl, rfl, rfl, rfl, rfl, rfl, rfl, rfl, rfl, rfl, rfl, rfl, rfl⟩

/-- C8: every time utility fails with an InvalidArgument error instead of
returning a value whenever its normalizing constant or time stretch is
not positive; division by zero never silently produces a number. -/
theorem time_utils_invalid_argument (x nc ts : ℝ) :
    (nc ≤ 0 → norm_days x nc = Except.error TradeError.InvalidArgument)
    ∧ (nc ≤ 0 → unnorm_days x nc = Except.error TradeError.InvalidArgument)
    ∧ (ts ≤ 0 → stretch_time x ts = Except.error TradeError.InvalidArgument)
    ∧ (ts ≤ 0 → unstretch_time x ts = Except.error TradeError.InvalidArgument)
    ∧ (nc ≤ 0 ∨ ts ≤ 0 →
        days_to_time_remaining x ts nc = Except.error TradeError.InvalidArgument)
    ∧ (nc ≤ 0 ∨ ts ≤ 0 →
        time_to_days_remaining x ts nc = Except.error TradeError.InvalidArgument) := by
  refine ⟨fun h => ?_, fun h => ?_, fun h => ?_, fun h => ?_, fun h => ?_, fun h => ?_⟩
  · rw [norm_days, if_pos h]
  · rw [unnorm_days, if_pos h]
  · rw [stretch_time, if_pos h]
  · rw [unstretch_time, if_pos h]
  · rw [days_to_time_remaining]
    rcases h with h | h
    · rw [if_pos h]
    · by_cases hnc : nc ≤ 0
      · rw [if_pos hnc]
      · rw [if_neg hnc, if_pos h]
  · rw [time_to_days_remaining]
    rcases h with h | h
    · rw [if_pos h]
    · by_cases hnc : nc ≤ 0
      · rw [if_pos hnc]
      · rw [if_neg hnc, if_pos h]

/-- Witness for C8 at the concrete arguments x = 1, constants -1. -/
theorem time_utils_invalid_argument_witness :
    norm_days 1 (-1) = Except.error TradeError.InvalidArgument
    ∧ unnorm_days 1 (-1) = Except.error TradeError.InvalidArgument
    ∧ stretch_time 1 (-1) = Except.error TradeError.InvalidArgument
    ∧ unstretch_time 1 (-1) = Except.error TradeError.InvalidArgument
    ∧ days_to_time_remaining 1 (-1) (-1) = Except.error TradeError.InvalidArgument
    ∧ time_to_days_remaining 1 (-1) (-1) = Except.error TradeError.InvalidArgument := by
  have h := time_utils_invalid_argument 1 (-1) (-1)
  exact ⟨h.1 (by norm_num), h.2.1 (by norm_num), h.2.2.1 (by norm_num),
    h.2.2.2.1 (by norm_num), h.2.2.2.2.1 (Or.inl (by norm_num)),
    h.2.2.2.2.2 (Or.inl (by norm_num))⟩

/-- C5: the Market mutates its state atomically: `trade_and_update`
either fails with an error, committing nothing, or returns the old market
with the full MarketDeltas set applied in a single `apply_delta` — never
a partial application. -/
theorem trade_and_update_atomic (m : Market) (a : MarketAction) :
    (∃ e, m.trade_and_update a = Except.error e)
    ∨ (∃ d w, m.trade_and_update a
        = Except.ok ({ m with market_state := m.market_state.apply_delta d }, w)) := by
  unfold Market.trade_and_update
  cases hci : check_input a.trade_amount m.position_duration with
  | error e => exact Or.inl ⟨e, rfl⟩
  | ok u =>
      cases hcl : check_liquidity m.market_state
          (market_deltas_for m.market_state m.position_duration a).1 with
      | error e => exact Or.inl ⟨e, by simp [hcl]⟩
      | ok v =>
          exact Or.inr ⟨(market_deltas_for m.market_state m.position_duration a).1,
            (market_deltas_for m.market_state m.position_duration a).2, by simp [hcl]⟩

/-- C6: opening a short of `trade_amount` bonds posts total margin in
base equal to the face value of the bonds shorted (short-sale proceeds
plus the collateral deposited from the wallet), and closing a short
returns the face-value margin minus the repurchase cost
(`d_base = trade_amount + user_result.d_base`), so the margin accounting
nets to zero in aggregate. -/
theorem short_margin_accounting (s : MarketState) (t : StretchedTime) (Δ : ℝ) :
    (calc_out_given_in { amount := Δ, unit := TokenType.PT } s t).user_result.d_base
        + -(market_deltas_open_short s t Δ).2.d_base = Δ
    ∧ (market_deltas_close_short s t Δ).2.d_base
        = Δ + (calc_in_given_out { amount := Δ, unit := TokenType.PT } s t).user_result.d_base
    ∧ (market_deltas_close_short s t Δ).2.d_base
        + (calc_in_given_out { amount := Δ, unit := TokenType.PT } s t).breakdown.with_fee
        = Δ := by
  refine ⟨?_, ?_, ?_⟩
  · simp [market_deltas_open_short]
  · simp [market_deltas_close_short]
  · simp [market_deltas_close_short, calc_in_given_out]
    ring

/-- C9: the max-short search is total and bounded: on a MarketState with
zero bond reserves `get_max_short` returns a max short of zero bonds (the
bisection lower bound is itself the answer), and exhausting the bisection
iteration cap still returns the best bisection estimate (the current
bracket midpoint) rather than failing. -/
theorem get_max_short_zero_bond_reserves (s : MarketState) (fp : ℝ)
    (t : StretchedTime) (g : ℝ → ℝ) (tol lo hi : ℝ)
    (h : s.bond_reserves = 0) :
    (get_max_short s fp t).2 = 0
    ∧ bisect g tol lo hi 0 = (lo + hi) / 2 := by
  constructor
  · show bisect (max_short_objective s t) bisection_tolerance 0 s.bond_reserves
        max_iterations = 0
    rw [h]
    exact bisect_self _ _ 0 max_iterations
  · rfl

/-- Witness for C9 at a concrete state with zero bond reserves and a
concrete bisection instance. -/
theorem get_max_short_zero_bond_reserves_witness :
    (get_max_short { share_reserves := 1 } 0
        { days := 365, time_stretch := 2 }).2 = 0
    ∧ bisect (fun x => x) 1 0 2 0 = (0 + 2) / 2 :=
  get_max_short_zero_bond_reserves { share_reserves := 1 } 0
    { days := 365, time_stretch := 2 } (fun x => x) 1 0 2 rfl

/-- Concrete StretchedTime used for evaluation: 365 days remaining with a
time stretch of two, so the stretched exponent is one half. -/
def example_time : StretchedTime := { days := 365, time_stretch := 2 }

/-- Helper: the stretched time of `example_time` is one half. -/
lemma example_time_stretched : example_time.stretched_time = 1 / 2 := by
  norm_num [example_time, StretchedTime.stretched_time, StretchedTime.normalized_time]

/-- Helper: the normalized time of `example_time` is one. -/
lemma example_time_normalized : example_time.normalized_time = 1 := by
  norm_num [example_time, StretchedTime.normalized_time]

/-- C4: for every MarketState with positive share reserves and every
StretchedTime, `calc_spot_price_from_reserves` returns
`((2*bond_reserves + share_price*share_reserves) /
(init_share_price*share_reserves))` raised to the power minus the
stretched-time exponent. -/
theorem spot_price_from_reserves_formula (s : MarketState) (t : StretchedTime)
    (_h : 0 < s.share_reserves) :
    calc_spot_price_from_reserves s t
      = ((2 * s.bond_reserves + s.share_price * s.share_reserves)
          / (s.init_share_price * s.share_reserves)) ^ (-t.stretched_time) := rfl

/-- Witness for C4 at a concrete MarketState with unit reserves. -/
theorem spot_price_from_reserves_formula_witness :
    0 < ({ share_reserves := 1, bond_reserves := 1 } : MarketState).share_reserves
    ∧ calc_spot_price_from_reserves { share_reserves := 1, bond_reserves := 1 }
        example_time
      = ((2 * ({ share_reserves := 1, bond_reserves := 1 } : MarketState).bond_reserves
            + ({ share_reserves := 1, bond_reserves := 1 } : MarketState).share_price
              * ({ share_reserves := 1, bond_reserves := 1 } : MarketState).share_reserves)
          / (({ share_reserves := 1, bond_reserves := 1 } : MarketState).init_share_price
              * ({ share_reserves := 1, bond_reserves := 1 } : MarketState).share_reserves))
          ^ (-example_time.stretched_time) :=
  ⟨by norm_num,
    spot_price_from_reserves_formula { share_reserves := 1, bond_reserves := 1 }
      example_time (by norm_num)⟩

/-- C2 (amended): with a zero trade fee, `calc_out_given_in` followed by
`calc_in_given_out` for the resulting output quantity evaluated on the
same pre-trade state recovers the original input amount exactly — the two
formulas are exact algebraic inverses.  (On the post-trade state the
round trip does not recover the input; see the counterexample.) -/
theorem roundtrip_same_state_recovers_input (s : MarketState) (t : StretchedTime)
    (Δ : ℝ)
    (hτ : 1 - t.stretched_time ≠ 0)
    (hc : s.share_price ≠ 0)
    (hμ : s.init_share_price ≠ 0)
    (hz : 0 ≤ s.init_share_price * (s.share_reserves + Δ / s.share_price))
    (hk : 0 ≤ calc_k_const s t
        - s.share_price / s.init_share_price
          * (s.init_share_price * (s.share_reserves + Δ / s.share_price))
              ^ (1 - t.stretched_time))
    (hφ : s.trade_fee_percent = 0) :
    (calc_in_given_out
        { amount := (calc_out_given_in { amount := Δ, unit := TokenType.BASE }
            s t).breakdown.with_fee,
          unit := TokenType.PT } s t).breakdown.with_fee = Δ := by
  simp only [calc_out_given_in, calc_in_given_out, hφ, mul_zero, zero_mul,
    sub_zero, add_zero, sub_sub_cancel]
  rw [rpow_one_div_rpow hk hτ, sub_sub_cancel,
    mul_div_cancel_left₀ _ (div_ne_zero hc hμ), rpow_rpow_one_div hz hτ]
  field_simp
  ring

/-- Concrete MarketState used for the round-trip evaluation: one share,
sixty bonds, unit share prices, zero fees. -/
def roundtrip_state : MarketState := { share_reserves := 1, bond_reserves := 60 }

/-- Helper: the invariant constant of `roundtrip_state` at `example_time`
is twelve. -/
lemma roundtrip_state_k : calc_k_const roundtrip_state example_time = 12 := by
  simp only [calc_k_const, roundtrip_state]
  rw [example_time_stretched]
  rw [show (1 : ℝ) - 1 / 2 = 1 / 2 by norm_num]
  rw [show ((1 : ℝ) * 1) = 1 by norm_num, Real.one_rpow,
    show ((2 : ℝ) * 60 + 1) = 121 by norm_num,
    rpow_eval_half (show (0 : ℝ) ≤ 11 by norm_num)
      (show (121 : ℝ) = 11 * 11 by norm_num) rfl]
  norm_num

/-- Helper: trading eight base into `roundtrip_state` yields forty bonds. -/
lemma roundtrip_out_with_fee :
    (calc_out_given_in { amount := 8, unit := TokenType.BASE } roundtrip_state
        example_time).breakdown.with_fee = 40 := by
  simp only [calc_out_given_in, roundtrip_state_k]
  rw [example_time_stretched]
  simp only [roundtrip_state]
  rw [show (1 : ℝ) - 1 / 2 = 1 / 2 by norm_num]
  rw [show (1 : ℝ) / (1 / 2) = 2 by norm_num]
  rw [show ((1 : ℝ) * (1 + 8 / 1)) = 9 by norm_num]
  rw [rpow_eval_half (show (0 : ℝ) ≤ 3 by norm_num)
    (show (9 : ℝ) = 3 * 3 by norm_num) rfl]
  rw [rpow_eval_two rfl]
  norm_num

/-- Helper: applying the market-side deltas of the eight-base trade to
`roundtrip_state` yields nine shares and twenty bonds. -/
lemma roundtrip_post_state_eval :
    roundtrip_state.apply_delta
      { d_base_asset := (calc_out_given_in { amount := 8, unit := TokenType.BASE }
          roundtrip_state example_time).market_result.d_base
        d_token_asset := (calc_out_given_in { amount := 8, unit := TokenType.BASE }
          roundtrip_state example_time).market_result.d_bonds }
    = { share_reserves := 9, bond_reserves := 20 } := by
  have hdb : (calc_out_given_in { amount := 8, unit := TokenType.BASE }
      roundtrip_state example_time).market_result.d_base = 8 := by
    simp [calc_out_given_in]
  have hwf := roundtrip_out_with_fee
  simp only [calc_out_given_in] at hwf
  have hdbonds : (calc_out_given_in { amount := 8, unit := TokenType.BASE }
      roundtrip_state example_time).market_result.d_bonds = -40 := by
    simp only [calc_out_given_in]
    rw [hwf]
  rw [hdb, hdbonds]
  simp [MarketState.apply_delta, roundtrip_state]
  norm_num

/-- Helper: asking `calc_in_given_out` for the forty bonds on the
post-trade state reports forty base required. -/
lemma roundtrip_back_with_fee :
    (calc_in_given_out { amount := 40, unit := TokenType.PT }
        { share_reserves := 9, bond_reserves := 20 } example_time).breakdown.with_fee
    = 40 := by
  simp only [calc_in_given_out, calc_k_const]
  rw [example_time_stretched]
  rw [show (1 : ℝ) - 1 / 2 = 1 / 2 by norm_num]
  rw [show (1 : ℝ) / (1 / 2) = 2 by norm_num]
  rw [show ((2 : ℝ) * 20 + 1 * 9 - 40) = 9 by norm_num]
  rw [show ((1 : ℝ) * 9) = 9 by norm_num]
  rw [rpow_eval_half (show (0 : ℝ) ≤ 3 by norm_num)
    (show (9 : ℝ) = 3 * 3 by norm_num) rfl]
  rw [show ((2 : ℝ) * 20 + 9) = 49 by norm_num]
  rw [rpow_eval_half (show (0 : ℝ) ≤ 7 by norm_num)
    (show (49 : ℝ) = 7 * 7 by norm_num) rfl]
  rw [rpow_eval_two rfl]
  norm_num

/-- C2 counterexample: on `roundtrip_state` (one share, sixty bonds, unit
prices, zero fee) at `example_time`, `calc_out_given_in` turns eight base
into forty bonds, but `calc_in_given_out` for those forty bonds evaluated
on the post-trade state (after applying the trade's own market deltas)
reports forty base required — not eight — so the round trip on the
resulting state does not recover the original input within any rounding
tolerance. -/
theorem roundtrip_post_state_counterexample :
    (calc_out_given_in { amount := 8, unit := TokenType.BASE } roundtrip_state
        example_time).breakdown.with_fee = 40
    ∧ (calc_in_given_out { amount := 40, unit := TokenType.PT }
        (roundtrip_state.apply_delta
          { d_base_asset := (calc_out_given_in { amount := 8, unit := TokenType.BASE }
              roundtrip_state example_time).market_result.d_base
            d_token_asset := (calc_out_given_in { amount := 8, unit := TokenType.BASE }
              roundtrip_state example_time).market_result.d_bonds })
        example_time).breakdown.with_fee = 40
    ∧ ¬ (|(40 : ℝ) - 8| ≤ 1 / 1000000 * 8) := by
  refine ⟨roundtrip_out_with_fee, ?_, ?_⟩
  · rw [roundtrip_post_state_eval]
    exact roundtrip_back_with_fee
  · rw [show |(40 : ℝ) - 8| = 32 by
      rw [show (40 : ℝ) - 8 = 32 by norm_num]
      exact abs_of_nonneg (by norm_num)]
    norm_num

/-- Witness for the amended C2 at `roundtrip_state` with input eight. -/
theorem roundtrip_same_state_witness :
    (calc_in_given_out
        { amount := (calc_out_given_in { amount := 8, unit := TokenType.BASE }
            roundtrip_state example_time).breakdown.with_fee,
          unit := TokenType.PT } roundtrip_state example_time).breakdown.with_fee
    = 8 := by
  refine roundtrip_same_state_recovers_input roundtrip_state example_time 8
    ?_ ?_ ?_ ?_ ?_ rfl
  · rw [example_time_stretched]
    norm_num
  · norm_num [roundtrip_state]
  · norm_num [roundtrip_state]
  · norm_num [roundtrip_state]
  · rw [roundtrip_state_k, example_time_stretched]
    rw [show (roundtrip_state.init_share_price
        * (roundtrip_state.share_reserves + 8 / roundtrip_state.share_price)) = 9 by
      norm_num [roundtrip_state]]
    rw [show (1 : ℝ) - 1 / 2 = 1 / 2 by norm_num]
    rw [rpow_eval_half (show (0 : ℝ) ≤ 3 by norm_num)
      (show (9 : ℝ) = 3 * 3 by norm_num) rfl]
    norm_num [roundtrip_state]

/-- C3 (amended): for every valid MarketState (positive share reserves,
nonnegative bond reserves, share price at least the positive initial
share price), nonnegative trade fee, nonnegative stretch exponent and
nonnegative input, the fee reported by `calc_out_given_in` is
nonnegative, and it equals the trade-fee fraction of the gap between the
no-slippage amount and the input amount converted at par.  (The bound
`fee < breakdown.without_fee` of the original claim does not hold in
general; see the counterexample.) -/
theorem fee_nonneg_and_gap (q : Quantity) (s : MarketState) (t : StretchedTime)
    (hz : 0 < s.share_reserves)
    (hy : 0 ≤ s.bond_reserves)
    (hμ : 0 < s.init_share_price)
    (hcμ : s.init_share_price ≤ s.share_price)
    (hφ : 0 ≤ s.trade_fee_percent)
    (hτ : 0 ≤ t.stretched_time)
    (hq : 0 ≤ q.amount) :
    0 ≤ (calc_out_given_in q s t).breakdown.fee
    ∧ (q.unit = TokenType.BASE →
        (calc_out_given_in q s t).breakdown.fee
          = s.trade_fee_percent
            * ((calc_out_given_in q s t).breakdown.without_fee_or_slippage
                - q.amount))
    ∧ (q.unit = TokenType.PT →
        (calc_out_given_in q s t).breakdown.fee
          = s.trade_fee_percent
            * (q.amount
                - (calc_out_given_in q s t).breakdown.without_fee_or_slippage)) := by
  have hzpos : 0 < s.init_share_price * s.share_reserves := mul_pos hμ hz
  have hratio : 1 ≤ (2 * s.bond_reserves + s.share_price * s.share_reserves)
      / (s.init_share_price * s.share_reserves) := by
    rw [le_div_iff₀ hzpos]
    have hcz : s.init_share_price * s.share_reserves
        ≤ s.share_price * s.share_reserves :=
      mul_le_mul_of_nonneg_right hcμ hz.le
    linarith
  obtain ⟨amt, u⟩ := q
  cases u with
  | BASE =>
      simp only [calc_out_given_in]
      have h1 : 1 ≤ ((2 * s.bond_reserves + s.share_price * s.share_reserves)
          / (s.init_share_price * s.share_reserves)) ^ t.stretched_time :=
        Real.one_le_rpow hratio hτ
      refine ⟨mul_nonneg (mul_nonneg (by linarith) hφ) hq, fun _ => by ring,
        fun h => ?_⟩
      cases h
  | PT =>
      simp only [calc_out_given_in]
      have h1 : ((2 * s.bond_reserves + s.share_price * s.share_reserves)
          / (s.init_share_price * s.share_reserves)) ^ (-t.stretched_time) ≤ 1 :=
        Real.rpow_le_one_of_one_le_of_nonpos hratio (by linarith)
      refine ⟨mul_nonneg (mul_nonneg (by linarith) hφ) hq, fun h => ?_,
        fun _ => by ring⟩
      cases h

/-- Concrete MarketState for the fee evaluation: four shares, 198 bonds,
unit prices and a fifty percent trade fee, a deep-discount pool. -/
def fee_state : MarketState :=
  { share_reserves := 4, bond_reserves := 198, trade_fee_percent := 1 / 2 }

/-- Helper: the invariant constant of `fee_state` at `example_time` is
twenty-two. -/
lemma fee_state_k : calc_k_const fee_state example_time = 22 := by
  simp only [calc_k_const, fee_state]
  rw [example_time_stretched]
  rw [show (1 : ℝ) - 1 / 2 = 1 / 2 by norm_num]
  rw [show ((1 : ℝ) * 4) = 4 by norm_num]
  rw [rpow_eval_half (show (0 : ℝ) ≤ 2 by norm_num)
    (show (4 : ℝ) = 2 * 2 by norm_num) rfl]
  rw [show ((2 : ℝ) * 198 + 4) = 400 by norm_num]
  rw [rpow_eval_half (show (0 : ℝ) ≤ 20 by norm_num)
    (show (400 : ℝ) = 20 * 20 by norm_num) rfl]
  norm_num

/-- Helper: the fee of the 41-bond trade on `fee_state` is 369/20. -/
lemma fee_state_fee_eval :
    (calc_out_given_in { amount := 41, unit := TokenType.PT } fee_state
        example_time).breakdown.fee = 369 / 20 := by
  simp only [calc_out_given_in, fee_state]
  rw [example_time_stretched]
  rw [show ((2 : ℝ) * 198 + 1 * 4) / (1 * 4) = 100 by norm_num]
  rw [rpow_eval_neg_half (show (0 : ℝ) < 10 by norm_num)
    (show (100 : ℝ) = 10 * 10 by norm_num) rfl]
  norm_num

/-- Helper: the no-fee output of the 41-bond trade on `fee_state` is
three base. -/
lemma fee_state_without_fee_eval :
    (calc_out_given_in { amount := 41, unit := TokenType.PT } fee_state
        example_time).breakdown.without_fee = 3 := by
  simp only [calc_out_given_in, fee_state_k]
  rw [example_time_stretched]
  simp only [fee_state]
  rw [show (1 : ℝ) - 1 / 2 = 1 / 2 by norm_num]
  rw [show (1 : ℝ) / (1 / 2) = 2 by norm_num]
  rw [show ((2 : ℝ) * 198 + 1 * 4 + 41) = 441 by norm_num]
  rw [rpow_eval_half (show (0 : ℝ) ≤ 21 by norm_num)
    (show (441 : ℝ) = 21 * 21 by norm_num) rfl]
  rw [rpow_eval_two rfl]
  norm_num

/-- C3 counterexample: on `fee_state` (a valid deep-discount pool with
trade fee one half, inside the claim's fee range) the 41-bond trade has
fee 369/20 but no-fee amount 3: the fee is not strictly less than the
no-fee trade amount. -/
theorem fee_exceeds_without_fee_counterexample :
    (0 : ℝ) ≤ fee_state.trade_fee_percent
    ∧ fee_state.trade_fee_percent < 1
    ∧ (calc_out_given_in { amount := 41, unit := TokenType.PT } fee_state
        example_time).breakdown.fee = 369 / 20
    ∧ (calc_out_given_in { amount := 41, unit := TokenType.PT } fee_state
        example_time).breakdown.without_fee = 3
    ∧ ¬ ((369 : ℝ) / 20 < 3) := by
  refine ⟨by norm_num [fee_state], by norm_num [fee_state],
    fee_state_fee_eval, fee_state_without_fee_eval, by norm_num⟩

/-- Witness for the amended C3 at the 41-bond trade on `fee_state`. -/
theorem fee_nonneg_and_gap_witness :
    0 ≤ (calc_out_given_in { amount := 41, unit := TokenType.PT } fee_state
        example_time).breakdown.fee
    ∧ (TokenType.PT = TokenType.BASE →
        (calc_out_given_in { amount := 41, unit := TokenType.PT } fee_state
            example_time).breakdown.fee
          = fee_state.trade_fee_percent
            * ((calc_out_given_in { amount := 41, unit := TokenType.PT } fee_state
                example_time).breakdown.without_fee_or_slippage - 41))
    ∧ (TokenType.PT = TokenType.PT →
        (calc_out_given_in { amount := 41, unit := TokenType.PT } fee_state
            example_time).breakdown.fee
          = fee_state.trade_fee_percent
            * (41 - (calc_out_given_in { amount := 41, unit := TokenType.PT }
                fee_state example_time).breakdown.without_fee_or_slippage)) := by
  exact fee_nonneg_and_gap { amount := 41, unit := TokenType.PT } fee_state
    example_time (by norm_num [fee_state]) (by norm_num [fee_state])
    (by norm_num [fee_state]) (by norm_num [fee_state]) (by norm_num [fee_state])
    (by rw [example_time_stretched]; norm_num) (by norm_num)

/-- Helper: the reserve ratio determines the APR: whenever the pool ratio
`(2y + cz) / (mu z)` equals `(1 + A t)^(1/tau)`, the APR implied by the
reserves is exactly `A`. -/
lemma apr_from_ratio (s : MarketState) (dur : StretchedTime) (z y A : ℝ)
    (ht : dur.normalized_time ≠ 0)
    (hx : (0 : ℝ) < 1 + A * dur.normalized_time)
    (hτ : dur.stretched_time ≠ 0)
    (hratio : (2 * y + s.share_price * z) / (s.init_share_price * z)
        = (1 + A * dur.normalized_time) ^ (1 / dur.stretched_time)) :
    calc_apr_from_reserves
      { s with share_reserves := z, bond_reserves := y } dur = A := by
  simp only [calc_apr_from_reserves, calc_spot_price_from_reserves,
    calc_apr_from_spot_price]
  rw [hratio, ← Real.rpow_mul hx.le,
    show 1 / dur.stretched_time * -dur.stretched_time = -1 by field_simp,
    Real.rpow_neg_one]
  field_simp

/-- Helper: the unscaled reserves produced inside `calc_liquidity` have
pool ratio exactly `(1 + A t)^(1/tau)`. -/
lemma calc_liquidity_ratio0 (s : MarketState) (L A : ℝ) (dur : StretchedTime)
    (hL : L ≠ 0) (hc : s.share_price ≠ 0) (hμ : s.init_share_price ≠ 0) :
    (2 * (L / s.share_price / 2
          * (s.init_share_price
              * (1 + A * dur.normalized_time) ^ (1 / dur.stretched_time)
            - s.share_price))
        + s.share_price * (L / s.share_price))
      / (s.init_share_price * (L / s.share_price))
    = (1 + A * dur.normalized_time) ^ (1 / dur.stretched_time) := by
  field_simp
  ring

/-- Helper: scaling a reserve pair by `L` divided by its own total makes
the scaled total exactly `L`. -/
lemma scale_total (cz xinv y0 z0 ℓ L : ℝ) (hℓ : ℓ ≠ 0)
    (hsum : cz * z0 + xinv * y0 = ℓ) :
    cz * (z0 * (L / ℓ)) + xinv * (y0 * (L / ℓ)) = L := by
  have h : cz * (z0 * (L / ℓ)) + xinv * (y0 * (L / ℓ))
      = (cz * z0 + xinv * y0) * (L / ℓ) := by ring
  rw [h, hsum, mul_comm, div_mul_cancel₀ L hℓ]

/-- Helper: a ratio-preserving scaling of both reserves leaves the pool
ratio unchanged. -/
lemma scaled_ratio (c μ R z0 y0 sf : ℝ) (hz0 : z0 ≠ 0) (hsf : sf ≠ 0)
    (hμ : μ ≠ 0) (h2y : 2 * y0 + c * z0 = z0 * (μ * R)) :
    (2 * (y0 * sf) + c * (z0 * sf)) / (μ * (z0 * sf)) = R := by
  rw [div_eq_iff (mul_ne_zero hμ (mul_ne_zero hz0 hsf))]
  linear_combination sf * h2y

/-- C7: for every positive target liquidity, nonnegative target APR in the
achievable range, and position duration with positive normalized time and
nonzero stretch, the reserve pair returned by `calc_liquidity`, passed
back through `calc_apr_from_reserves`, reproduces the target APR within
1e-13 relative tolerance, and its base-denominated total reproduces the
target liquidity within 1e-15 relative tolerance (both recoveries are in
fact exact). -/
theorem calc_liquidity_roundtrip (s : MarketState) (L A : ℝ) (dur : StretchedTime)
    (hL : 0 < L)
    (hc : 0 < s.share_price)
    (hμ : 0 < s.init_share_price)
    (ht : 0 < dur.normalized_time)
    (hτ : dur.stretched_time ≠ 0)
    (hA : 0 ≤ A)
    (hcr : s.share_price ≤ s.init_share_price
        * (1 + A * dur.normalized_time) ^ (1 / dur.stretched_time)) :
    |calc_apr_from_reserves
        { s with share_reserves := (calc_liquidity s L A dur).1
                 bond_reserves := (calc_liquidity s L A dur).2 } dur - A|
      ≤ 1 / 10 ^ 13 * |A|
    ∧ |calc_total_liquidity_from_reserves_and_price
        { s with share_reserves := (calc_liquidity s L A dur).1
                 bond_reserves := (calc_liquidity s L A dur).2 } dur - L|
      ≤ 1 / 10 ^ 15 * L := by
  have hxpos : (0 : ℝ) < 1 + A * dur.normalized_time := by
    have := mul_nonneg hA ht.le
    linarith
  have hp : ((1 + A * dur.normalized_time) ^ (1 / dur.stretched_time))
      ^ (-dur.stretched_time) = (1 + A * dur.normalized_time)⁻¹ := by
    rw [← Real.rpow_mul hxpos.le,
      show 1 / dur.stretched_time * -dur.stretched_time = -1 by field_simp,
      Real.rpow_neg_one]
  have hP0 : ((2 * (L / s.share_price / 2
        * (s.init_share_price
            * (1 + A * dur.normalized_time) ^ (1 / dur.stretched_time)
          - s.share_price))
      + s.share_price * (L / s.share_price))
      / (s.init_share_price * (L / s.share_price))) ^ (-dur.stretched_time)
      = (1 + A * dur.normalized_time)⁻¹ := by
    rw [calc_liquidity_ratio0 s L A dur hL.ne' hc.ne' hμ.ne', hp]
  have hy0 : 0 ≤ L / s.share_price / 2
      * (s.init_share_price
          * (1 + A * dur.normalized_time) ^ (1 / dur.stretched_time)
        - s.share_price) := by
    apply mul_nonneg
    · positivity
    · linarith
  have hl0 : 0 < s.share_price * (L / s.share_price)
      + (1 + A * dur.normalized_time)⁻¹
        * (L / s.share_price / 2
            * (s.init_share_price
                * (1 + A * dur.normalized_time) ^ (1 / dur.stretched_time)
              - s.share_price)) := by
    have h1 : s.share_price * (L / s.share_price) = L := by field_simp
    rw [h1]
    have h2 : 0 ≤ (1 + A * dur.normalized_time)⁻¹
        * (L / s.share_price / 2
            * (s.init_share_price
                * (1 + A * dur.normalized_time) ^ (1 / dur.stretched_time)
              - s.share_price)) :=
      mul_nonneg (inv_nonneg.mpr hxpos.le) hy0
    linarith
  have hz0ne : L / s.share_price ≠ 0 := (div_pos hL hc).ne'
  have hratio_scaled : (2 * (calc_liquidity s L A dur).2
      + s.share_price * (calc_liquidity s L A dur).1)
      / (s.init_share_price * (calc_liquidity s L A dur).1)
      = (1 + A * dur.normalized_time) ^ (1 / dur.stretched_time) := by
    simp only [calc_liquidity, calc_bond_reserves,
      calc_total_liquidity_from_reserves_and_price, calc_spot_price_from_reserves]
    rw [hP0]
    exact scaled_ratio s.share_price s.init_share_price _ _ _ _
      hz0ne (div_ne_zero hL.ne' hl0.ne') hμ.ne' (by ring)
  constructor
  · rw [apr_from_ratio s dur (calc_liquidity s L A dur).1
      (calc_liquidity s L A dur).2 A ht.ne' hxpos hτ hratio_scaled]
    rw [sub_self, abs_zero]
    positivity
  · have hliq : calc_total_liquidity_from_reserves_and_price
        { s with share_reserves := (calc_liquidity s L A dur).1
                 bond_reserves := (calc_liquidity s L A dur).2 } dur = L := by
      simp only [calc_total_liquidity_from_reserves_and_price,
        calc_spot_price_from_reserves]
      rw [hratio_scaled, hp]
      simp only [calc_liquidity, calc_bond_reserves,
        calc_total_liquidity_from_reserves_and_price, calc_spot_price_from_reserves]
      rw [hP0]
      exact scale_total s.share_price (1 + A * dur.normalized_time)⁻¹
        (L / s.share_price / 2
          * (s.init_share_price
              * (1 + A * dur.normalized_time) ^ (1 / dur.stretched_time)
            - s.share_price))
        (L / s.share_price)
        (s.share_price * (L / s.share_price)
          + (1 + A * dur.normalized_time)⁻¹
            * (L / s.share_price / 2
                * (s.init_share_price
                    * (1 + A * dur.normalized_time) ^ (1 / dur.stretched_time)
                  - s.share_price)))
        L hl0.ne' rfl
    rw [hliq, sub_self, abs_zero]
    positivity

/-- Witness for C7 on the default pool at target liquidity 100 and target
APR 3. -/
theorem calc_liquidity_roundtrip_witness :
    |calc_apr_from_reserves
        { default_market_state with
            share_reserves := (calc_liquidity default_market_state 100 3 example_time).1
            bond_reserves := (calc_liquidity default_market_state 100 3 example_time).2 }
        example_time - 3|
      ≤ 1 / 10 ^ 13 * |(3 : ℝ)|
    ∧ |calc_total_liquidity_from_reserves_and_price
        { default_market_state with
            share_reserves := (calc_liquidity default_market_state 100 3 example_time).1
            bond_reserves := (calc_liquidity default_market_state 100 3 example_time).2 }
        example_time - 100|
      ≤ 1 / 10 ^ 15 * 100 := by
  refine calc_liquidity_roundtrip default_market_state 100 3 example_time
    (by norm_num) (by norm_num [default_market_state])
    (by norm_num [default_market_state])
    (by rw [example_time_normalized]; norm_num)
    (by rw [example_time_stretched]; norm_num)
    (by norm_num) ?_
  rw [example_time_normalized, example_time_stretched]
  rw [show (1 : ℝ) / (1 / 2) = 2 by norm_num]
  rw [show (1 : ℝ) + 3 * 1 = 4 by norm_num]
  rw [rpow_eval_two rfl]
  norm_num [default_market_state]

end Elfpy

end
